import Mathlib

/-
Verification development for the MFA energy-savings calculation engine
(src/Final_Model.py). The engine is a pure arithmetic pipeline: a building
configuration is turned into derived baseline quantities at construction
time, then per-measure savings, aggregate savings, and financial figures
are computed from an intervention selection.

Modelling conventions:
- Python floats are modelled as rationals (ℚ); every operation of the
  engine is exact rational arithmetic.
- A Python dict entry that may be absent is modelled as an Option.
- A Python float division raises ZeroDivisionError exactly when the
  denominator equals zero; every unguarded division of the source is
  therefore modelled by an Option-valued function that returns none
  exactly when such a denominator is zero, and some of the result
  otherwise. Divisions the source guards with a conditional are modelled
  with the same conditional and stay total.
- The sentinel float inf returned for the simple payback is modelled by
  Option ℚ, none standing for positive infinity.
-/

/-- Mirrors the dataclass BuildingConfig of Final_Model.py. -/
structure BuildingConfig where
  total_area : ℚ
  exhibition_percent : ℚ
  old_building_percent : ℚ
  new_building_percent : ℚ
  total_site_energy : ℚ
  eui : ℚ
  hvac_percent : ℚ
  lighting_percent : ℚ
  other_percent : ℚ
  current_led_percentage : ℚ
  new_building_efficiency_factor : ℚ
  fan_percent_of_hvac : ℚ
  deriving DecidableEq

/-- Default field values of BuildingConfig. -/
def defaultBuildingConfig : BuildingConfig where
  total_area := 630800
  exhibition_percent := 49/100
  old_building_percent := 78/100
  new_building_percent := 22/100
  total_site_energy := 176424575
  eui := 2797/10
  hvac_percent := 85/100
  lighting_percent := 5/100
  other_percent := 10/100
  current_led_percentage := 70/100
  new_building_efficiency_factor := 85/100
  fan_percent_of_hvac := 25/100

/-- Mirrors the dataclass InterventionConfig of Final_Model.py. -/
structure InterventionConfig where
  hvac_rightsizing_factor : ℚ
  humidity_control_factor : ℚ
  vfd_factor : ℚ
  led_conversion_factor : ℚ
  window_upgrade_factor : ℚ
  deriving DecidableEq

/-- Default field values of InterventionConfig. -/
def defaultInterventionConfig : InterventionConfig where
  hvac_rightsizing_factor := 30/100
  humidity_control_factor := 10/100
  vfd_factor := 40/100
  led_conversion_factor := 70/100
  window_upgrade_factor := 10/100

/-- Mirrors the dataclass CostFactors of Final_Model.py. -/
structure CostFactors where
  elec_rate : ℚ
  gas_rate : ℚ
  kbtu_to_kwh : ℚ
  kbtu_to_therm : ℚ
  co2_factor_elec : ℚ
  co2_factor_gas : ℚ
  deriving DecidableEq

/-- Default field values of CostFactors. -/
def defaultCostFactors : CostFactors where
  elec_rate := 305/1000
  gas_rate := 251/100
  kbtu_to_kwh := 3412/1000
  kbtu_to_therm := 100
  co2_factor_elec := 2628/10000000
  co2_factor_gas := 1812/10000000

/-- One entry of the interventions dict: the old and new zone adoption
percentages. Each sub-key may be absent, in which case the source reads it
with dict.get and the default 0. -/
structure ZoneAdoption where
  old : Option ℚ
  new : Option ℚ
  deriving DecidableEq

/-- The interventions dict passed to calculate_savings: for each of the
five fixed measure keys, the entry is present or absent. -/
structure InterventionSelection where
  hvac_rightsizing : Option ZoneAdoption
  humidity_control : Option ZoneAdoption
  vfd : Option ZoneAdoption
  led_conversion : Option ZoneAdoption
  window_upgrades : Option ZoneAdoption
  deriving DecidableEq

/-- The empty interventions dict. -/
def emptySelection : InterventionSelection where
  hvac_rightsizing := none
  humidity_control := none
  vfd := none
  led_conversion := none
  window_upgrades := none

/-- exhibition_area as computed in MFAEnergySavingsTool init. -/
def exhibition_area (c : BuildingConfig) : ℚ := c.total_area * c.exhibition_percent

/-- old_building_area as computed in MFAEnergySavingsTool init. -/
def old_building_area (c : BuildingConfig) : ℚ := exhibition_area c * c.old_building_percent

/-- new_building_area as computed in MFAEnergySavingsTool init. -/
def new_building_area (c : BuildingConfig) : ℚ := exhibition_area c * c.new_building_percent

/-- exhibition_energy as computed in calculate_energy_allocation. -/
def exhibition_energy (c : BuildingConfig) : ℚ := c.total_site_energy * c.exhibition_percent

/-- total_effective_area as computed in calculate_energy_allocation:
the old zone area undiscounted plus the new zone area scaled by the
new-building efficiency factor. This is the denominator of the zone
energy allocation. -/
def total_effective_area (c : BuildingConfig) : ℚ :=
  old_building_area c + new_building_area c * c.new_building_efficiency_factor

/-- The state of a constructed MFAEnergySavingsTool: the two configuration
bundles plus every derived attribute set by init, calculate_energy_allocation
and calculate_end_use_breakdown. -/
structure MFAEnergySavingsTool where
  config : BuildingConfig
  interventions_config : InterventionConfig
  exhibition_area : ℚ
  old_building_area : ℚ
  new_building_area : ℚ
  exhibition_energy : ℚ
  old_building_energy : ℚ
  new_building_energy : ℚ
  old_building_hvac : ℚ
  old_building_lighting : ℚ
  old_building_other : ℚ
  old_building_fan : ℚ
  new_building_hvac : ℚ
  new_building_lighting : ℚ
  new_building_other : ℚ
  new_building_fan : ℚ
  total_hvac : ℚ
  total_lighting : ℚ
  total_other : ℚ
  total_fan : ℚ
  deriving DecidableEq

/-- The attribute values the constructor computes, as a total function.
Division here is rational division; mkTool guards the one denominator
(total_effective_area) exactly where the Python division would raise. -/
def mkToolCore (config : BuildingConfig) (interventions_config : InterventionConfig) :
    MFAEnergySavingsTool :=
  let old_building_energy :=
    exhibition_energy config * (old_building_area config / total_effective_area config)
  let new_building_energy :=
    exhibition_energy config *
      (new_building_area config * config.new_building_efficiency_factor /
        total_effective_area config)
  let old_building_hvac := old_building_energy * config.hvac_percent
  let new_building_hvac := new_building_energy * config.hvac_percent
  { config := config
    interventions_config := interventions_config
    exhibition_area := exhibition_area config
    old_building_area := old_building_area config
    new_building_area := new_building_area config
    exhibition_energy := exhibition_energy config
    old_building_energy := old_building_energy
    new_building_energy := new_building_energy
    old_building_hvac := old_building_hvac
    old_building_lighting := old_building_energy * config.lighting_percent
    old_building_other := old_building_energy * config.other_percent
    old_building_fan := old_building_hvac * config.fan_percent_of_hvac
    new_building_hvac := new_building_hvac
    new_building_lighting := new_building_energy * config.lighting_percent
    new_building_other := new_building_energy * config.other_percent
    new_building_fan := new_building_hvac * config.fan_percent_of_hvac
    total_hvac := old_building_hvac + new_building_hvac
    total_lighting :=
      old_building_energy * config.lighting_percent + new_building_energy * config.lighting_percent
    total_other :=
      old_building_energy * config.other_percent + new_building_energy * config.other_percent
    total_fan :=
      old_building_hvac * config.fan_percent_of_hvac +
        new_building_hvac * config.fan_percent_of_hvac }

/-- Engine construction. calculate_energy_allocation divides by
total_effective_area with no guard, so the Python constructor raises
ZeroDivisionError exactly when that denominator is zero; this is the none
case. -/
def mkTool (config : BuildingConfig) (interventions_config : InterventionConfig) :
    Option MFAEnergySavingsTool :=
  if total_effective_area config = 0 then none
  else some (mkToolCore config interventions_config)

/-- The tool built from the default configuration bundles. -/
def defaultTool : MFAEnergySavingsTool :=
  mkToolCore defaultBuildingConfig defaultInterventionConfig

/-- Mirrors the private method for HVAC rightsizing savings: 0 when the
key is absent, otherwise zone HVAC energy times the factor times the
adoption fraction, summed over the two zones. -/
def calculate_hvac_rightsizing_savings (t : MFAEnergySavingsTool)
    (interventions : InterventionSelection) : ℚ :=
  match interventions.hvac_rightsizing with
  | none => 0
  | some z =>
    let old_impl := z.old.getD 0 / 100
    let new_impl := z.new.getD 0 / 100
    t.old_building_hvac * t.interventions_config.hvac_rightsizing_factor * old_impl +
      t.new_building_hvac * t.interventions_config.hvac_rightsizing_factor * new_impl

/-- Mirrors the private method for humidity control savings. -/
def calculate_humidity_control_savings (t : MFAEnergySavingsTool)
    (interventions : InterventionSelection) : ℚ :=
  match interventions.humidity_control with
  | none => 0
  | some z =>
    let old_impl := z.old.getD 0 / 100
    let new_impl := z.new.getD 0 / 100
    t.old_building_hvac * t.interventions_config.humidity_control_factor * old_impl +
      t.new_building_hvac * t.interventions_config.humidity_control_factor * new_impl

/-- Mirrors the private method for VFD savings, which targets fan energy. -/
def calculate_vfd_savings (t : MFAEnergySavingsTool)
    (interventions : InterventionSelection) : ℚ :=
  match interventions.vfd with
  | none => 0
  | some z =>
    let old_impl := z.old.getD 0 / 100
    let new_impl := z.new.getD 0 / 100
    t.old_building_fan * t.interventions_config.vfd_factor * old_impl +
      t.new_building_fan * t.interventions_config.vfd_factor * new_impl

/-- Mirrors the private method for LED conversion savings: the adoption
fraction is first reduced by current_led_percentage and clamped at zero,
independently per zone. -/
def calculate_led_conversion_savings (t : MFAEnergySavingsTool)
    (interventions : InterventionSelection) : ℚ :=
  match interventions.led_conversion with
  | none => 0
  | some z =>
    let old_impl := z.old.getD 0 / 100
    let new_impl := z.new.getD 0 / 100
    let old_effective_impl := max 0 (old_impl - t.config.current_led_percentage)
    let new_effective_impl := max 0 (new_impl - t.config.current_led_percentage)
    t.old_building_lighting * t.interventions_config.led_conversion_factor * old_effective_impl +
      t.new_building_lighting * t.interventions_config.led_conversion_factor * new_effective_impl

/-- Mirrors the private method for window upgrade savings. -/
def calculate_window_upgrade_savings (t : MFAEnergySavingsTool)
    (interventions : InterventionSelection) : ℚ :=
  match interventions.window_upgrades with
  | none => 0
  | some z =>
    let old_impl := z.old.getD 0 / 100
    let new_impl := z.new.getD 0 / 100
    t.old_building_hvac * t.interventions_config.window_upgrade_factor * old_impl +
      t.new_building_hvac * t.interventions_config.window_upgrade_factor * new_impl

/-- The dict returned by calculate_savings: the five individual savings
plus the aggregate metrics. -/
structure SavingsResult where
  hvac_rightsizing : ℚ
  humidity_control : ℚ
  vfd : ℚ
  led_conversion : ℚ
  window_upgrades : ℚ
  total_savings : ℚ
  new_energy_use : ℚ
  new_eui : ℚ
  percent_savings : ℚ
  baseline_eui : ℚ
  deriving DecidableEq

/-- The values calculate_savings computes, as a total function. The two
divisions (by total_area for the new EUI and by total_site_energy for the
percent savings) are guarded in calculate_savings exactly where the Python
division would raise. -/
def savingsCore (t : MFAEnergySavingsTool) (interventions : InterventionSelection) :
    SavingsResult :=
  let s_hvac_rightsizing := calculate_hvac_rightsizing_savings t interventions
  let s_humidity_control := calculate_humidity_control_savings t interventions
  let s_vfd := calculate_vfd_savings t interventions
  let s_led_conversion := calculate_led_conversion_savings t interventions
  let s_window_upgrades := calculate_window_upgrade_savings t interventions
  let hvac_savings := s_hvac_rightsizing + s_humidity_control + s_vfd + s_window_upgrades
  let lighting_savings := s_led_conversion
  let hvac_savings_capped := min hvac_savings (95/100 * t.total_hvac)
  let total_savings := hvac_savings_capped + lighting_savings
  let new_energy_use := t.config.total_site_energy - total_savings
  { hvac_rightsizing := s_hvac_rightsizing
    humidity_control := s_humidity_control
    vfd := s_vfd
    led_conversion := s_led_conversion
    window_upgrades := s_window_upgrades
    total_savings := total_savings
    new_energy_use := new_energy_use
    new_eui := new_energy_use / t.config.total_area
    percent_savings := total_savings / t.config.total_site_energy * 100
    baseline_eui := t.config.eui }

/-- calculate_savings. The source divides by total_area and by
total_site_energy with no guard, so the Python call raises
ZeroDivisionError exactly when either is zero; this is the none case. -/
def calculate_savings (t : MFAEnergySavingsTool) (interventions : InterventionSelection) :
    Option SavingsResult :=
  if t.config.total_area = 0 then none
  else if t.config.total_site_energy = 0 then none
  else some (savingsCore t interventions)

/-- The dict returned by calculate_baseline. -/
structure BaselineResult where
  total_area : ℚ
  exhibition_area : ℚ
  old_building_area : ℚ
  new_building_area : ℚ
  total_energy : ℚ
  exhibition_energy : ℚ
  old_building_energy : ℚ
  new_building_energy : ℚ
  eui : ℚ
  new_building_efficiency_factor : ℚ
  effective_new_area : ℚ
  old_building_eui : ℚ
  new_building_eui : ℚ
  eui_ratio : ℚ
  deriving DecidableEq

/-- calculate_baseline. Its three divisions are each guarded by a
positivity test in the source, with 0 as the fallback, so the method is
total. -/
def calculate_baseline (t : MFAEnergySavingsTool) : BaselineResult :=
  let old_building_eui :=
    if 0 < t.old_building_area then t.old_building_energy / t.old_building_area else 0
  let new_building_eui :=
    if 0 < t.new_building_area then t.new_building_energy / t.new_building_area else 0
  { total_area := t.config.total_area
    exhibition_area := t.exhibition_area
    old_building_area := t.old_building_area
    new_building_area := t.new_building_area
    total_energy := t.config.total_site_energy
    exhibition_energy := t.exhibition_energy
    old_building_energy := t.old_building_energy
    new_building_energy := t.new_building_energy
    eui := t.config.eui
    new_building_efficiency_factor := t.config.new_building_efficiency_factor
    effective_new_area := t.new_building_area * t.config.new_building_efficiency_factor
    old_building_eui := old_building_eui
    new_building_eui := new_building_eui
    eui_ratio := if 0 < old_building_eui then new_building_eui / old_building_eui else 0 }

/-- The electricity share of each measure in the elec_gas_split table of
estimate_costs_and_payback, applied to the individual savings and
accumulated, mirroring the loop over the five measures. -/
def electricity_savings_kbtu (sr : SavingsResult) : ℚ :=
  sr.hvac_rightsizing * (40/100) + sr.humidity_control * (30/100) + sr.vfd * 1 +
    sr.led_conversion * 1 + sr.window_upgrades * (25/100)

/-- The gas share of each measure in the elec_gas_split table of
estimate_costs_and_payback, applied to the individual savings and
accumulated, mirroring the loop over the five measures. -/
def gas_savings_kbtu (sr : SavingsResult) : ℚ :=
  sr.hvac_rightsizing * (60/100) + sr.humidity_control * (70/100) + sr.vfd * 0 +
    sr.led_conversion * 0 + sr.window_upgrades * (75/100)

/-- One term of the implementation-cost loop: 0 when the measure key is
absent, otherwise the per-zone area times unit cost times adoption
fraction, summed over the two zones. -/
def measure_cost (t : MFAEnergySavingsTool) (z : Option ZoneAdoption)
    (old_rate new_rate : ℚ) : ℚ :=
  match z with
  | none => 0
  | some za =>
    t.old_building_area * old_rate * (za.old.getD 0 / 100) +
      t.new_building_area * new_rate * (za.new.getD 0 / 100)

/-- total_cost of estimate_costs_and_payback: the implementation-cost loop
over the five measures with the fixed per-square-foot rates of the
implementation_costs table. -/
def total_cost (t : MFAEnergySavingsTool) (interventions : InterventionSelection) : ℚ :=
  measure_cost t interventions.hvac_rightsizing 15 10 +
    measure_cost t interventions.humidity_control 5 3 +
    measure_cost t interventions.vfd 2 (3/2) +
    measure_cost t interventions.led_conversion 8 8 +
    measure_cost t interventions.window_upgrades 25 10

/-- The dict returned by estimate_costs_and_payback. simple_payback is
Option ℚ: none stands for the float inf sentinel returned when the annual
cost savings is not positive. -/
structure FinancialResult where
  annual_cost_savings : ℚ
  electricity_cost_savings : ℚ
  gas_cost_savings : ℚ
  implementation_cost : ℚ
  simple_payback : Option ℚ
  total_co2_reduction : ℚ
  co2_reduction_elec : ℚ
  co2_reduction_gas : ℚ
  deriving DecidableEq

/-- The values estimate_costs_and_payback computes, as a total function.
The two unit-conversion divisions are guarded in estimate_costs_and_payback
exactly where the Python division would raise; the payback division is
guarded by the positivity test of the source itself. -/
def estimateCore (t : MFAEnergySavingsTool) (interventions : InterventionSelection)
    (savings_results : SavingsResult) (cost_factors : CostFactors) : FinancialResult :=
  let electricity_savings_kwh := electricity_savings_kbtu savings_results / cost_factors.kbtu_to_kwh
  let gas_savings_therm := gas_savings_kbtu savings_results / cost_factors.kbtu_to_therm
  let electricity_cost_savings := electricity_savings_kwh * cost_factors.elec_rate
  let gas_cost_savings := gas_savings_therm * cost_factors.gas_rate
  let annual_cost_savings := electricity_cost_savings + gas_cost_savings
  let co2_reduction_elec := electricity_savings_kwh * cost_factors.co2_factor_elec
  let co2_reduction_gas := gas_savings_therm * cost_factors.co2_factor_gas
  let cost := total_cost t interventions
  { annual_cost_savings := annual_cost_savings
    electricity_cost_savings := electricity_cost_savings
    gas_cost_savings := gas_cost_savings
    implementation_cost := cost
    simple_payback :=
      if 0 < annual_cost_savings then some (cost / annual_cost_savings) else none
    total_co2_reduction := co2_reduction_elec + co2_reduction_gas
    co2_reduction_elec := co2_reduction_elec
    co2_reduction_gas := co2_reduction_gas }

/-- estimate_costs_and_payback. The source divides the accumulated kBtu
figures by kbtu_to_kwh and kbtu_to_therm with no guard, so the Python call
raises ZeroDivisionError exactly when either conversion factor is zero;
this is the none case. -/
def estimate_costs_and_payback (t : MFAEnergySavingsTool)
    (interventions : InterventionSelection) (savings_results : SavingsResult)
    (cost_factors : CostFactors) : Option FinancialResult :=
  if cost_factors.kbtu_to_kwh = 0 then none
  else if cost_factors.kbtu_to_therm = 0 then none
  else some (estimateCore t interventions savings_results cost_factors)

/-- The dashboard default selection: the initial slider values of the
streamlit app with all five measures enabled. -/
def referenceSelection : InterventionSelection where
  hvac_rightsizing := some ⟨some 75, some 25⟩
  humidity_control := some ⟨some 90, some 50⟩
  vfd := some ⟨some 80, some 40⟩
  led_conversion := some ⟨some 95, some 60⟩
  window_upgrades := some ⟨some 70, some 0⟩

/-- Full adoption of all five measures in both zones. -/
def fullSelection : InterventionSelection where
  hvac_rightsizing := some ⟨some 100, some 100⟩
  humidity_control := some ⟨some 100, some 100⟩
  vfd := some ⟨some 100, some 100⟩
  led_conversion := some ⟨some 100, some 100⟩
  window_upgrades := some ⟨some 100, some 100⟩

/-- A selection whose only entry requests an LED adoption not above the
already-installed LED share in both zones. -/
def ledOnlySelection : InterventionSelection where
  hvac_rightsizing := none
  humidity_control := none
  vfd := none
  led_conversion := some ⟨some 70, some 0⟩
  window_upgrades := none

/-- A degenerate configuration whose derived quantities are all driven by
a negative total site energy; construction succeeds because the total
effective area is positive. -/
def negativeEnergyConfig : BuildingConfig where
  total_area := 100
  exhibition_percent := 1
  old_building_percent := 1
  new_building_percent := 0
  total_site_energy := -1000
  eui := 0
  hvac_percent := 1
  lighting_percent := 0
  other_percent := 0
  current_led_percentage := 0
  new_building_efficiency_factor := 1
  fan_percent_of_hvac := 0

/-- The old-zone adoption percentage a measure entry stands for: an absent
key, like a present key with adoption 0, contributes nothing. -/
def adoptionOld : Option ZoneAdoption → ℚ
  | none => 0
  | some z => z.old.getD 0

/-- The new-zone adoption percentage a measure entry stands for. -/
def adoptionNew : Option ZoneAdoption → ℚ
  | none => 0
  | some z => z.new.getD 0

/-- Pointwise comparison of two selections on all ten adoption slots,
absent keys and sub-keys read as 0. -/
def selLE (a b : InterventionSelection) : Prop :=
  adoptionOld a.hvac_rightsizing ≤ adoptionOld b.hvac_rightsizing ∧
  adoptionNew a.hvac_rightsizing ≤ adoptionNew b.hvac_rightsizing ∧
  adoptionOld a.humidity_control ≤ adoptionOld b.humidity_control ∧
  adoptionNew a.humidity_control ≤ adoptionNew b.humidity_control ∧
  adoptionOld a.vfd ≤ adoptionOld b.vfd ∧
  adoptionNew a.vfd ≤ adoptionNew b.vfd ∧
  adoptionOld a.led_conversion ≤ adoptionOld b.led_conversion ∧
  adoptionNew a.led_conversion ≤ adoptionNew b.led_conversion ∧
  adoptionOld a.window_upgrades ≤ adoptionOld b.window_upgrades ∧
  adoptionNew a.window_upgrades ≤ adoptionNew b.window_upgrades

/-- Two measure entries are equivalent when they are both absent or both
present with the same adoption values under the dict.get default 0, so a
missing sub-key is equivalent to an explicit 0. -/
def zoneEquiv : Option ZoneAdoption → Option ZoneAdoption → Prop
  | none, none => True
  | some z1, some z2 => z1.old.getD 0 = z2.old.getD 0 ∧ z1.new.getD 0 = z2.new.getD 0
  | none, some _ => False
  | some _, none => False

/-- Two selections are equivalent when their five entries are. -/
def selEquiv (a b : InterventionSelection) : Prop :=
  zoneEquiv a.hvac_rightsizing b.hvac_rightsizing ∧
  zoneEquiv a.humidity_control b.humidity_control ∧
  zoneEquiv a.vfd b.vfd ∧
  zoneEquiv a.led_conversion b.led_conversion ∧
  zoneEquiv a.window_upgrades b.window_upgrades

/-- The default configuration with a zero total area. -/
def zeroAreaConfig : BuildingConfig :=
  { defaultBuildingConfig with total_area := 0 }

/-- A savings result with arbitrary individual figures. -/
def sampleSavingsA : SavingsResult :=
  ⟨1, 2, 3, 4, 5, 100, 0, 0, 0, 0⟩

/-- The same individual figures as sampleSavingsA but different aggregate
figures, as if a cap had altered the total. -/
def sampleSavingsB : SavingsResult :=
  ⟨1, 2, 3, 4, 5, 999, 7, 8, 9, 10⟩

/-- A selection whose only entry has its old sub-key missing. -/
def missingOldSelection : InterventionSelection where
  hvac_rightsizing := some ⟨none, some 5⟩
  humidity_control := none
  vfd := none
  led_conversion := none
  window_upgrades := none

/-- The same selection with the old sub-key written as an explicit 0. -/
def explicitZeroSelection : InterventionSelection where
  hvac_rightsizing := some ⟨some 0, some 5⟩
  humidity_control := none
  vfd := none
  led_conversion := none
  window_upgrades := none

/-- Engine construction succeeds exactly when the allocation denominator
is nonzero, and then yields the attribute values of mkToolCore. -/
theorem mkTool_eq_some {c : BuildingConfig} {ic : InterventionConfig}
    {t : MFAEnergySavingsTool} :
    mkTool c ic = some t ↔ total_effective_area c ≠ 0 ∧ t = mkToolCore c ic := by
  unfold mkTool
  split_ifs with h
  · simp [h]
  · simp [h, eq_comm]

/-- calculate_savings succeeds exactly when total_area and
total_site_energy are nonzero, and then yields the values of savingsCore. -/
theorem calculate_savings_eq_some {t : MFAEnergySavingsTool}
    {iv : InterventionSelection} {r : SavingsResult} :
    calculate_savings t iv = some r ↔
      t.config.total_area ≠ 0 ∧ t.config.total_site_energy ≠ 0 ∧ r = savingsCore t iv := by
  unfold calculate_savings
  split_ifs with h1 h2
  · simp [h1]
  · simp [h1, h2]
  · simp [h1, h2, eq_comm]

/-- estimate_costs_and_payback succeeds exactly when both unit-conversion
factors are nonzero, and then yields the values of estimateCore. -/
theorem estimate_eq_some {t : MFAEnergySavingsTool} {iv : InterventionSelection}
    {sr : SavingsResult} {cf : CostFactors} {fr : FinancialResult} :
    estimate_costs_and_payback t iv sr cf = some fr ↔
      cf.kbtu_to_kwh ≠ 0 ∧ cf.kbtu_to_therm ≠ 0 ∧ fr = estimateCore t iv sr cf := by
  unfold estimate_costs_and_payback
  split_ifs with h1 h2
  · simp [h1]
  · simp [h1, h2]
  · simp [h1, h2, eq_comm]

/-- C2 counterexample: with the default configuration the engine computes
an old-zone exhibition area of exactly 241091.76 sq ft and a new-zone area
of exactly 68000.24 sq ft; the figures 241214.76 and 68005.24 of the claim
are off by 123 and 5 sq ft, so they are not approximations of the derived
areas. -/
theorem C2_default_areas_counterexample :
    (mkTool defaultBuildingConfig defaultInterventionConfig).map
        MFAEnergySavingsTool.old_building_area = some (24109176/100) ∧
    (mkTool defaultBuildingConfig defaultInterventionConfig).map
        MFAEnergySavingsTool.new_building_area = some (6800024/100) ∧
    (24121476 : ℚ)/100 - 24109176/100 = 123 ∧
    (6800524 : ℚ)/100 - 6800024/100 = 5 := by
  refine ⟨?_, ?_, by norm_num, by norm_num⟩ <;>
    norm_num [mkTool, mkToolCore, total_effective_area, old_building_area, new_building_area,
      exhibition_area, defaultBuildingConfig]

/-- C2 (amended): with the default BuildingConfig the derived old-zone
exhibition area equals 630800 x 0.49 x 0.78 = 241091.76 sq ft and the
new-zone exhibition area equals 630800 x 0.49 x 0.22 = 68000.24 sq ft. -/
theorem C2_default_areas :
    ∃ t, mkTool defaultBuildingConfig defaultInterventionConfig = some t ∧
      t.old_building_area = 630800 * (49/100) * (78/100) ∧
      t.new_building_area = 630800 * (49/100) * (22/100) ∧
      t.old_building_area = 24109176/100 ∧
      t.new_building_area = 6800024/100 := by
  refine ⟨mkToolCore defaultBuildingConfig defaultInterventionConfig, ?_, ?_, ?_, ?_, ?_⟩ <;>
    norm_num [mkTool, mkToolCore, total_effective_area, old_building_area, new_building_area,
      exhibition_area, defaultBuildingConfig]

/-- C3: whenever calculate_savings returns, its Total Savings equals the
minimum of the four HVAC-adjacent savings and 95 percent of total baseline
HVAC energy, plus the uncapped LED savings; the HVAC-adjacent contribution
therefore never exceeds 95 percent of total baseline HVAC energy. -/
theorem C3_hvac_cap (t : MFAEnergySavingsTool) (iv : InterventionSelection)
    (r : SavingsResult) (h : calculate_savings t iv = some r) :
    r.total_savings =
      min
        (calculate_hvac_rightsizing_savings t iv + calculate_humidity_control_savings t iv +
          calculate_vfd_savings t iv + calculate_window_upgrade_savings t iv)
        (95/100 * t.total_hvac) + calculate_led_conversion_savings t iv ∧
    min
        (calculate_hvac_rightsizing_savings t iv + calculate_humidity_control_savings t iv +
          calculate_vfd_savings t iv + calculate_window_upgrade_savings t iv)
        (95/100 * t.total_hvac) ≤ 95/100 * t.total_hvac := by
  obtain ⟨-, -, rfl⟩ := calculate_savings_eq_some.mp h
  exact ⟨rfl, min_le_right _ _⟩

/-- C3 witness at the default tool and full adoption of every measure. -/
theorem C3_hvac_cap_witness :
    (savingsCore defaultTool fullSelection).total_savings =
      min
        (calculate_hvac_rightsizing_savings defaultTool fullSelection +
          calculate_humidity_control_savings defaultTool fullSelection +
          calculate_vfd_savings defaultTool fullSelection +
          calculate_window_upgrade_savings defaultTool fullSelection)
        (95/100 * defaultTool.total_hvac) + calculate_led_conversion_savings defaultTool fullSelection ∧
    min
        (calculate_hvac_rightsizing_savings defaultTool fullSelection +
          calculate_humidity_control_savings defaultTool fullSelection +
          calculate_vfd_savings defaultTool fullSelection +
          calculate_window_upgrade_savings defaultTool fullSelection)
        (95/100 * defaultTool.total_hvac) ≤ 95/100 * defaultTool.total_hvac :=
  C3_hvac_cap defaultTool fullSelection (savingsCore defaultTool fullSelection)
    (by norm_num [calculate_savings, defaultTool, mkToolCore, defaultBuildingConfig])

/-- C4: for a present led_conversion entry the savings uses, per zone, the
effective adoption max 0 (requested/100 - current_led_percentage); hence
the LED savings is exactly 0 as soon as both requested percentages are at
most 100 times current_led_percentage. -/
theorem C4_led_clamp (t : MFAEnergySavingsTool) (iv : InterventionSelection)
    (z : ZoneAdoption) (hz : iv.led_conversion = some z) :
    calculate_led_conversion_savings t iv =
      t.old_building_lighting * t.interventions_config.led_conversion_factor *
        max 0 (z.old.getD 0 / 100 - t.config.current_led_percentage) +
      t.new_building_lighting * t.interventions_config.led_conversion_factor *
        max 0 (z.new.getD 0 / 100 - t.config.current_led_percentage) ∧
    (z.old.getD 0 ≤ 100 * t.config.current_led_percentage →
      z.new.getD 0 ≤ 100 * t.config.current_led_percentage →
      calculate_led_conversion_savings t iv = 0) := by
  constructor
  · simp [calculate_led_conversion_savings, hz]
  · intro h1 h2
    have e1 : max 0 (z.old.getD 0 / 100 - t.config.current_led_percentage) = 0 :=
      max_eq_left (by linarith)
    have e2 : max 0 (z.new.getD 0 / 100 - t.config.current_led_percentage) = 0 :=
      max_eq_left (by linarith)
    simp [calculate_led_conversion_savings, hz, e1, e2]

/-- C4 witness: at the default configuration, requesting 70 percent LED
adoption in the old zone and 0 in the new zone yields zero LED savings. -/
theorem C4_led_clamp_witness :
    calculate_led_conversion_savings defaultTool ledOnlySelection = 0 :=
  (C4_led_clamp defaultTool ledOnlySelection ⟨some 70, some 0⟩ rfl).2
    (by norm_num [defaultTool, mkToolCore, defaultBuildingConfig])
    (by norm_num [defaultTool, mkToolCore, defaultBuildingConfig])

/-- C8: for a successfully constructed engine, exhibition energy, which is
total_site_energy times exhibition_percent, is allocated to the zones in
the ratio of effective areas: the old zone area undiscounted over the old
zone area plus the efficiency-discounted new zone area, and symmetrically
for the new zone. -/
theorem C8_energy_allocation (c : BuildingConfig) (ic : InterventionConfig)
    (t : MFAEnergySavingsTool) (h : mkTool c ic = some t)
    (hpos : 0 < old_building_area c + new_building_area c * c.new_building_efficiency_factor) :
    t.old_building_energy =
      c.total_site_energy * c.exhibition_percent *
        (t.old_building_area /
          (t.old_building_area + t.new_building_area * c.new_building_efficiency_factor)) ∧
    t.new_building_energy =
      c.total_site_energy * c.exhibition_percent *
        (t.new_building_area * c.new_building_efficiency_factor /
          (t.old_building_area + t.new_building_area * c.new_building_efficiency_factor)) := by
  obtain ⟨-, rfl⟩ := mkTool_eq_some.mp h
  exact ⟨rfl, rfl⟩

/-- C8 witness at the default configuration. -/
theorem C8_energy_allocation_witness :
    defaultTool.old_building_energy =
      defaultBuildingConfig.total_site_energy * defaultBuildingConfig.exhibition_percent *
        (defaultTool.old_building_area /
          (defaultTool.old_building_area + defaultTool.new_building_area *
            defaultBuildingConfig.new_building_efficiency_factor)) ∧
    defaultTool.new_building_energy =
      defaultBuildingConfig.total_site_energy * defaultBuildingConfig.exhibition_percent *
        (defaultTool.new_building_area * defaultBuildingConfig.new_building_efficiency_factor /
          (defaultTool.old_building_area + defaultTool.new_building_area *
            defaultBuildingConfig.new_building_efficiency_factor)) :=
  C8_energy_allocation defaultBuildingConfig defaultInterventionConfig defaultTool
    (by norm_num [mkTool, total_effective_area, old_building_area, new_building_area,
      exhibition_area, defaultBuildingConfig, defaultTool])
    (by norm_num [old_building_area, new_building_area, exhibition_area, defaultBuildingConfig])

/-- Projection identity: the simple payback field of estimateCore is the
guarded quotient of the implementation cost by the annual cost savings. -/
theorem estimateCore_simple_payback (t : MFAEnergySavingsTool) (iv : InterventionSelection)
    (sr : SavingsResult) (cf : CostFactors) :
    (estimateCore t iv sr cf).simple_payback =
      if 0 < (estimateCore t iv sr cf).annual_cost_savings then
        some ((estimateCore t iv sr cf).implementation_cost /
          (estimateCore t iv sr cf).annual_cost_savings)
      else none := rfl

/-- C7 counterexample: with a zero kBtu-to-kWh conversion factor the
source raises ZeroDivisionError before any payback is produced, so
estimate_costs_and_payback does not return for every cost factors. -/
theorem C7_payback_counterexample :
    estimate_costs_and_payback defaultTool emptySelection
      (savingsCore defaultTool emptySelection)
      { defaultCostFactors with kbtu_to_kwh := 0 } = none := by
  norm_num [estimate_costs_and_payback, defaultCostFactors]

/-- C7 (amended): whenever both unit-conversion factors are nonzero,
estimate_costs_and_payback returns, its Simple Payback equals the
implementation cost divided by the annual cost savings when the latter is
positive, and is the infinity sentinel, with no arithmetic error, whenever
the annual cost savings is zero or negative. -/
theorem C7_payback (t : MFAEnergySavingsTool) (iv : InterventionSelection)
    (sr : SavingsResult) (cf : CostFactors)
    (h1 : cf.kbtu_to_kwh ≠ 0) (h2 : cf.kbtu_to_therm ≠ 0) :
    ∃ fr, estimate_costs_and_payback t iv sr cf = some fr ∧
      fr.implementation_cost = total_cost t iv ∧
      (0 < fr.annual_cost_savings →
        fr.simple_payback = some (fr.implementation_cost / fr.annual_cost_savings)) ∧
      (fr.annual_cost_savings ≤ 0 → fr.simple_payback = none) := by
  refine ⟨estimateCore t iv sr cf, ?_, rfl, ?_, ?_⟩
  · simp [estimate_costs_and_payback, h1, h2]
  · intro hpos
    rw [estimateCore_simple_payback, if_pos hpos]
  · intro hnp
    rw [estimateCore_simple_payback, if_neg (by linarith)]

/-- C7 witness at the default tool, the dashboard default selection and
the default cost factors. -/
theorem C7_payback_witness :
    ∃ fr, estimate_costs_and_payback defaultTool referenceSelection
        (savingsCore defaultTool referenceSelection) defaultCostFactors = some fr ∧
      fr.implementation_cost = total_cost defaultTool referenceSelection ∧
      (0 < fr.annual_cost_savings →
        fr.simple_payback = some (fr.implementation_cost / fr.annual_cost_savings)) ∧
      (fr.annual_cost_savings ≤ 0 → fr.simple_payback = none) :=
  C7_payback defaultTool referenceSelection (savingsCore defaultTool referenceSelection)
    defaultCostFactors (by norm_num [defaultCostFactors]) (by norm_num [defaultCostFactors])

/-- C9: the accumulated electricity and gas kBtu savings sum to the plain
sum of the five individual savings, because each electricity and gas split
of the source sums to one; and estimate_costs_and_payback reads only the
five individual savings of its savings argument, so its financial figures
are unaffected by the aggregate fields and hence by the 95 percent HVAC
cap applied to Total Savings. -/
theorem C9_split_sum_cap_independence :
    (∀ sr : SavingsResult,
      electricity_savings_kbtu sr + gas_savings_kbtu sr =
        sr.hvac_rightsizing + sr.humidity_control + sr.vfd + sr.led_conversion +
          sr.window_upgrades) ∧
    (∀ (t : MFAEnergySavingsTool) (iv : InterventionSelection) (cf : CostFactors)
        (sr1 sr2 : SavingsResult),
      sr1.hvac_rightsizing = sr2.hvac_rightsizing →
      sr1.humidity_control = sr2.humidity_control →
      sr1.vfd = sr2.vfd →
      sr1.led_conversion = sr2.led_conversion →
      sr1.window_upgrades = sr2.window_upgrades →
      estimate_costs_and_payback t iv sr1 cf = estimate_costs_and_payback t iv sr2 cf) := by
  constructor
  · intro sr
    unfold electricity_savings_kbtu gas_savings_kbtu
    ring
  · intro t iv cf sr1 sr2 h1 h2 h3 h4 h5
    unfold estimate_costs_and_payback estimateCore electricity_savings_kbtu gas_savings_kbtu
    rw [h1, h2, h3, h4, h5]

/-- C9 witness: two savings results sharing the individual figures but
differing in every aggregate figure produce identical financial output. -/
theorem C9_split_sum_cap_independence_witness :
    estimate_costs_and_payback defaultTool emptySelection sampleSavingsA defaultCostFactors =
      estimate_costs_and_payback defaultTool emptySelection sampleSavingsB defaultCostFactors :=
  C9_split_sum_cap_independence.2 defaultTool emptySelection defaultCostFactors
    sampleSavingsA sampleSavingsB rfl rfl rfl rfl rfl

/-- Congruence of one implementation-cost term under zone equivalence. -/
theorem measure_cost_congr (t : MFAEnergySavingsTool) {z1 z2 : Option ZoneAdoption}
    (h : zoneEquiv z1 z2) (o n : ℚ) : measure_cost t z1 o n = measure_cost t z2 o n := by
  cases z1 <;> cases z2 <;> simp_all [zoneEquiv, measure_cost]

/-- Congruence of HVAC rightsizing savings under zone equivalence. -/
theorem hvac_rightsizing_savings_congr (t : MFAEnergySavingsTool)
    {a b : InterventionSelection} (h : zoneEquiv a.hvac_rightsizing b.hvac_rightsizing) :
    calculate_hvac_rightsizing_savings t a = calculate_hvac_rightsizing_savings t b := by
  cases ha : a.hvac_rightsizing <;> cases hb : b.hvac_rightsizing <;> rw [ha, hb] at h <;>
    simp_all [zoneEquiv, calculate_hvac_rightsizing_savings]

/-- Congruence of humidity control savings under zone equivalence. -/
theorem humidity_control_savings_congr (t : MFAEnergySavingsTool)
    {a b : InterventionSelection} (h : zoneEquiv a.humidity_control b.humidity_control) :
    calculate_humidity_control_savings t a = calculate_humidity_control_savings t b := by
  cases ha : a.humidity_control <;> cases hb : b.humidity_control <;> rw [ha, hb] at h <;>
    simp_all [zoneEquiv, calculate_humidity_control_savings]

/-- Congruence of VFD savings under zone equivalence. -/
theorem vfd_savings_congr (t : MFAEnergySavingsTool)
    {a b : InterventionSelection} (h : zoneEquiv a.vfd b.vfd) :
    calculate_vfd_savings t a = calculate_vfd_savings t b := by
  cases ha : a.vfd <;> cases hb : b.vfd <;> rw [ha, hb] at h <;>
    simp_all [zoneEquiv, calculate_vfd_savings]

/-- Congruence of LED conversion savings under zone equivalence. -/
theorem led_conversion_savings_congr (t : MFAEnergySavingsTool)
    {a b : InterventionSelection} (h : zoneEquiv a.led_conversion b.led_conversion) :
    calculate_led_conversion_savings t a = calculate_led_conversion_savings t b := by
  cases ha : a.led_conversion <;> cases hb : b.led_conversion <;> rw [ha, hb] at h <;>
    simp_all [zoneEquiv, calculate_led_conversion_savings]

/-- Congruence of window upgrade savings under zone equivalence. -/
theorem window_upgrade_savings_congr (t : MFAEnergySavingsTool)
    {a b : InterventionSelection} (h : zoneEquiv a.window_upgrades b.window_upgrades) :
    calculate_window_upgrade_savings t a = calculate_window_upgrade_savings t b := by
  cases ha : a.window_upgrades <;> cases hb : b.window_upgrades <;> rw [ha, hb] at h <;>
    simp_all [zoneEquiv, calculate_window_upgrade_savings]

/-- C10: a present measure entry whose old or new sub-key is missing is
treated by calculate_savings and estimate_costs_and_payback exactly as an
entry carrying adoption 0 for that zone, with no error: any two selections
equal up to replacing missing sub-keys by 0 produce identical savings and
identical financial output. -/
theorem C10_missing_subkey (t : MFAEnergySavingsTool) (a b : InterventionSelection)
    (h : selEquiv a b) :
    calculate_savings t a = calculate_savings t b ∧
    ∀ (sr : SavingsResult) (cf : CostFactors),
      estimate_costs_and_payback t a sr cf = estimate_costs_and_payback t b sr cf := by
  obtain ⟨h1, h2, h3, h4, h5⟩ := h
  have e1 := hvac_rightsizing_savings_congr t h1
  have e2 := humidity_control_savings_congr t h2
  have e3 := vfd_savings_congr t h3
  have e4 := led_conversion_savings_congr t h4
  have e5 := window_upgrade_savings_congr t h5
  have ecost : total_cost t a = total_cost t b := by
    unfold total_cost
    rw [measure_cost_congr t h1, measure_cost_congr t h2, measure_cost_congr t h3,
      measure_cost_congr t h4, measure_cost_congr t h5]
  constructor
  · unfold calculate_savings savingsCore
    rw [e1, e2, e3, e4, e5]
  · intro sr cf
    unfold estimate_costs_and_payback estimateCore
    rw [ecost]

/-- C10 witness: a missing old sub-key and an explicit 0 old sub-key give
the same savings output at the default tool. -/
theorem C10_missing_subkey_witness :
    calculate_savings defaultTool missingOldSelection =
      calculate_savings defaultTool explicitZeroSelection :=
  (C10_missing_subkey defaultTool missingOldSelection explicitZeroSelection
    (by simp [selEquiv, zoneEquiv, missingOldSelection, explicitZeroSelection])).1

/-- C1 counterexample: a BuildingConfig with zero total area has zero
total effective area, and engine construction divides by it unguarded, so
construction raises instead of reporting a sentinel. -/
theorem C1_division_counterexample :
    mkTool zeroAreaConfig defaultInterventionConfig = none := by
  norm_num [mkTool, total_effective_area, old_building_area, new_building_area,
    exhibition_area, zeroAreaConfig, defaultBuildingConfig]

/-- C1 (amended): only the divisions the source guards return sentinels:
the per-zone EUI and the EUI ratio of calculate_baseline fall back to 0.
Engine construction raises exactly when the total effective area is zero,
and calculate_savings raises exactly when total_area or total_site_energy
is zero. -/
theorem C1_division_guards :
    (∀ (c : BuildingConfig) (ic : InterventionConfig),
      mkTool c ic = none ↔ total_effective_area c = 0) ∧
    (∀ (t : MFAEnergySavingsTool) (iv : InterventionSelection),
      calculate_savings t iv = none ↔
        (t.config.total_area = 0 ∨ t.config.total_site_energy = 0)) ∧
    (∀ t : MFAEnergySavingsTool,
      ¬ 0 < t.old_building_area → (calculate_baseline t).old_building_eui = 0) ∧
    (∀ t : MFAEnergySavingsTool,
      ¬ 0 < t.new_building_area → (calculate_baseline t).new_building_eui = 0) ∧
    (∀ t : MFAEnergySavingsTool,
      ¬ 0 < (calculate_baseline t).old_building_eui → (calculate_baseline t).eui_ratio = 0) := by
  refine ⟨?_, ?_, ?_, ?_, ?_⟩
  · intro c ic
    unfold mkTool
    split_ifs with h <;> simp [h]
  · intro t iv
    unfold calculate_savings
    split_ifs with h1 h2
    · simp [h1]
    · simp [h1, h2]
    · simp [h1, h2]
  · intro t h
    simp only [calculate_baseline]
    rw [if_neg h]
  · intro t h
    simp only [calculate_baseline]
    rw [if_neg h]
  · intro t h
    simp only [calculate_baseline] at h ⊢
    rw [if_neg h]

/-- C1 witness: at the engine state of the zero-area configuration the
old-zone EUI is reported as the sentinel 0. -/
theorem C1_division_guards_witness :
    (calculate_baseline (mkToolCore zeroAreaConfig defaultInterventionConfig)).old_building_eui
      = 0 :=
  C1_division_guards.2.2.1 (mkToolCore zeroAreaConfig defaultInterventionConfig)
    (by norm_num [mkToolCore, old_building_area, exhibition_area, zeroAreaConfig,
      defaultBuildingConfig])

/-- C5 counterexample: a constructible configuration with negative total
site energy has negative baseline HVAC energy, and then the cap
min(0, 0.95 x total_hvac) makes the empty selection yield a nonzero Total
Savings of -950 and a New Energy Use of -50 instead of the baseline
-1000. -/
theorem C5_empty_selection_counterexample :
    mkTool negativeEnergyConfig defaultInterventionConfig =
      some (mkToolCore negativeEnergyConfig defaultInterventionConfig) ∧
    (calculate_savings (mkToolCore negativeEnergyConfig defaultInterventionConfig)
        emptySelection).map SavingsResult.total_savings = some (-950) ∧
    (calculate_savings (mkToolCore negativeEnergyConfig defaultInterventionConfig)
        emptySelection).map SavingsResult.new_energy_use = some (-50) ∧
    (mkToolCore negativeEnergyConfig defaultInterventionConfig).config.total_site_energy
      = -1000 := by
  refine ⟨?_, ?_, ?_, ?_⟩ <;>
    norm_num [mkTool, mkToolCore, calculate_savings, savingsCore,
      calculate_hvac_rightsizing_savings, calculate_humidity_control_savings,
      calculate_vfd_savings, calculate_led_conversion_savings,
      calculate_window_upgrade_savings, emptySelection, min_def,
      total_effective_area, old_building_area, new_building_area, exhibition_area,
      exhibition_energy, negativeEnergyConfig]

/-- C5 (amended): for every engine whose baseline total HVAC energy is
nonnegative, calculate_savings on the empty selection, when it returns,
yields Total Savings exactly 0 and New Energy Use exactly the baseline
total_site_energy; and an absent measure key always contributes zero
savings rather than an error. -/
theorem C5_empty_selection (t : MFAEnergySavingsTool) (r : SavingsResult)
    (hhvac : 0 ≤ t.total_hvac)
    (h : calculate_savings t emptySelection = some r) :
    r.total_savings = 0 ∧ r.new_energy_use = t.config.total_site_energy ∧
    calculate_hvac_rightsizing_savings t emptySelection = 0 ∧
    calculate_humidity_control_savings t emptySelection = 0 ∧
    calculate_vfd_savings t emptySelection = 0 ∧
    calculate_led_conversion_savings t emptySelection = 0 ∧
    calculate_window_upgrade_savings t emptySelection = 0 := by
  obtain ⟨-, -, rfl⟩ := calculate_savings_eq_some.mp h
  have htot : (savingsCore t emptySelection).total_savings = 0 := by
    have e : (savingsCore t emptySelection).total_savings =
        min ((0:ℚ) + 0 + 0 + 0) (95/100 * t.total_hvac) + 0 := rfl
    rw [e, add_zero]
    norm_num
    linarith
  have hnew : (savingsCore t emptySelection).new_energy_use =
      t.config.total_site_energy - (savingsCore t emptySelection).total_savings := rfl
  exact ⟨htot, by rw [hnew, htot, sub_zero], rfl, rfl, rfl, rfl, rfl⟩

/-- C5 witness at the default configuration, whose baseline total HVAC
energy is nonnegative. -/
theorem C5_empty_selection_witness :
    (savingsCore defaultTool emptySelection).total_savings = 0 ∧
    (savingsCore defaultTool emptySelection).new_energy_use =
      defaultTool.config.total_site_energy ∧
    calculate_hvac_rightsizing_savings defaultTool emptySelection = 0 ∧
    calculate_humidity_control_savings defaultTool emptySelection = 0 ∧
    calculate_vfd_savings defaultTool emptySelection = 0 ∧
    calculate_led_conversion_savings defaultTool emptySelection = 0 ∧
    calculate_window_upgrade_savings defaultTool emptySelection = 0 :=
  C5_empty_selection defaultTool (savingsCore defaultTool emptySelection)
    (by norm_num [defaultTool, mkToolCore, total_effective_area, old_building_area,
      new_building_area, exhibition_area, exhibition_energy, defaultBuildingConfig])
    (by norm_num [calculate_savings, defaultTool, mkToolCore, defaultBuildingConfig])

/-- HVAC rightsizing savings written over the adoption readings, with an
absent key read as adoption 0. -/
theorem hvac_rightsizing_savings_eq (t : MFAEnergySavingsTool) (iv : InterventionSelection) :
    calculate_hvac_rightsizing_savings t iv =
      t.old_building_hvac * t.interventions_config.hvac_rightsizing_factor *
        (adoptionOld iv.hvac_rightsizing / 100) +
      t.new_building_hvac * t.interventions_config.hvac_rightsizing_factor *
        (adoptionNew iv.hvac_rightsizing / 100) := by
  cases h : iv.hvac_rightsizing <;>
    simp [calculate_hvac_rightsizing_savings, adoptionOld, adoptionNew, h]

/-- Humidity control savings written over the adoption readings. -/
theorem humidity_control_savings_eq (t : MFAEnergySavingsTool) (iv : InterventionSelection) :
    calculate_humidity_control_savings t iv =
      t.old_building_hvac * t.interventions_config.humidity_control_factor *
        (adoptionOld iv.humidity_control / 100) +
      t.new_building_hvac * t.interventions_config.humidity_control_factor *
        (adoptionNew iv.humidity_control / 100) := by
  cases h : iv.humidity_control <;>
    simp [calculate_humidity_control_savings, adoptionOld, adoptionNew, h]

/-- VFD savings written over the adoption readings. -/
theorem vfd_savings_eq (t : MFAEnergySavingsTool) (iv : InterventionSelection) :
    calculate_vfd_savings t iv =
      t.old_building_fan * t.interventions_config.vfd_factor * (adoptionOld iv.vfd / 100) +
      t.new_building_fan * t.interventions_config.vfd_factor * (adoptionNew iv.vfd / 100) := by
  cases h : iv.vfd <;> simp [calculate_vfd_savings, adoptionOld, adoptionNew, h]

/-- Window upgrade savings written over the adoption readings. -/
theorem window_upgrade_savings_eq (t : MFAEnergySavingsTool) (iv : InterventionSelection) :
    calculate_window_upgrade_savings t iv =
      t.old_building_hvac * t.interventions_config.window_upgrade_factor *
        (adoptionOld iv.window_upgrades / 100) +
      t.new_building_hvac * t.interventions_config.window_upgrade_factor *
        (adoptionNew iv.window_upgrades / 100) := by
  cases h : iv.window_upgrades <;>
    simp [calculate_window_upgrade_savings, adoptionOld, adoptionNew, h]

/-- LED conversion savings written over the adoption readings, for a
nonnegative existing LED share. -/
theorem led_conversion_savings_eq (t : MFAEnergySavingsTool) (iv : InterventionSelection)
    (hc : 0 ≤ t.config.current_led_percentage) :
    calculate_led_conversion_savings t iv =
      t.old_building_lighting * t.interventions_config.led_conversion_factor *
        max 0 (adoptionOld iv.led_conversion / 100 - t.config.current_led_percentage) +
      t.new_building_lighting * t.interventions_config.led_conversion_factor *
        max 0 (adoptionNew iv.led_conversion / 100 - t.config.current_led_percentage) := by
  cases h : iv.led_conversion with
  | none =>
    have e : max (0:ℚ) (-t.config.current_led_percentage) = 0 :=
      max_eq_left (by linarith)
    simp [calculate_led_conversion_savings, adoptionOld, adoptionNew, h, e]
  | some z =>
    simp [calculate_led_conversion_savings, adoptionOld, adoptionNew, h]

/-- Total Savings is pointwise monotone in the ten adoption readings when
the zone end-use energies, the effectiveness factors and the existing LED
share are nonnegative. -/
theorem savingsCore_total_mono (t : MFAEnergySavingsTool)
    (hoh : 0 ≤ t.old_building_hvac) (hnh : 0 ≤ t.new_building_hvac)
    (hof : 0 ≤ t.old_building_fan) (hnf : 0 ≤ t.new_building_fan)
    (hol : 0 ≤ t.old_building_lighting) (hnl : 0 ≤ t.new_building_lighting)
    (hf1 : 0 ≤ t.interventions_config.hvac_rightsizing_factor)
    (hf2 : 0 ≤ t.interventions_config.humidity_control_factor)
    (hf3 : 0 ≤ t.interventions_config.vfd_factor)
    (hf4 : 0 ≤ t.interventions_config.led_conversion_factor)
    (hf5 : 0 ≤ t.interventions_config.window_upgrade_factor)
    (hc : 0 ≤ t.config.current_led_percentage)
    (a b : InterventionSelection) (hab : selLE a b) :
    (savingsCore t a).total_savings ≤ (savingsCore t b).total_savings := by
  obtain ⟨l1, l2, l3, l4, l5, l6, l7, l8, l9, l10⟩ := hab
  have m1 : calculate_hvac_rightsizing_savings t a ≤ calculate_hvac_rightsizing_savings t b := by
    rw [hvac_rightsizing_savings_eq t a, hvac_rightsizing_savings_eq t b]
    exact add_le_add
      (mul_le_mul_of_nonneg_left (by linarith) (mul_nonneg hoh hf1))
      (mul_le_mul_of_nonneg_left (by linarith) (mul_nonneg hnh hf1))
  have m2 : calculate_humidity_control_savings t a ≤ calculate_humidity_control_savings t b := by
    rw [humidity_control_savings_eq t a, humidity_control_savings_eq t b]
    exact add_le_add
      (mul_le_mul_of_nonneg_left (by linarith) (mul_nonneg hoh hf2))
      (mul_le_mul_of_nonneg_left (by linarith) (mul_nonneg hnh hf2))
  have m3 : calculate_vfd_savings t a ≤ calculate_vfd_savings t b := by
    rw [vfd_savings_eq t a, vfd_savings_eq t b]
    exact add_le_add
      (mul_le_mul_of_nonneg_left (by linarith) (mul_nonneg hof hf3))
      (mul_le_mul_of_nonneg_left (by linarith) (mul_nonneg hnf hf3))
  have m5 : calculate_window_upgrade_savings t a ≤ calculate_window_upgrade_savings t b := by
    rw [window_upgrade_savings_eq t a, window_upgrade_savings_eq t b]
    exact add_le_add
      (mul_le_mul_of_nonneg_left (by linarith) (mul_nonneg hoh hf5))
      (mul_le_mul_of_nonneg_left (by linarith) (mul_nonneg hnh hf5))
  have m4 : calculate_led_conversion_savings t a ≤ calculate_led_conversion_savings t b := by
    rw [led_conversion_savings_eq t a hc, led_conversion_savings_eq t b hc]
    have j1 : max (0:ℚ)
        (adoptionOld a.led_conversion / 100 - t.config.current_led_percentage) ≤
        max 0 (adoptionOld b.led_conversion / 100 - t.config.current_led_percentage) :=
      max_le_max le_rfl (by linarith)
    have j2 : max (0:ℚ)
        (adoptionNew a.led_conversion / 100 - t.config.current_led_percentage) ≤
        max 0 (adoptionNew b.led_conversion / 100 - t.config.current_led_percentage) :=
      max_le_max le_rfl (by linarith)
    exact add_le_add
      (mul_le_mul_of_nonneg_left j1 (mul_nonneg hol hf4))
      (mul_le_mul_of_nonneg_left j2 (mul_nonneg hnl hf4))
  have e : ∀ iv : InterventionSelection, (savingsCore t iv).total_savings =
      min
        (calculate_hvac_rightsizing_savings t iv + calculate_humidity_control_savings t iv +
          calculate_vfd_savings t iv + calculate_window_upgrade_savings t iv)
        (95/100 * t.total_hvac) + calculate_led_conversion_savings t iv := fun _ => rfl
  rw [e a, e b]
  exact add_le_add (min_le_min (by linarith) le_rfl) m4

/-- C6: for a constructed engine whose configuration has nonnegative area,
percentage, efficiency and effectiveness parameters and a positive total
site energy, Percent Savings is monotone under any pointwise increase of
the adoption percentages, in particular when a single adoption percentage
of one measure and zone increases with every other held fixed. -/
theorem C6_percent_savings_mono (c : BuildingConfig) (ic : InterventionConfig)
    (t : MFAEnergySavingsTool) (ht : mkTool c ic = some t)
    (harea : 0 ≤ c.total_area) (hex : 0 ≤ c.exhibition_percent)
    (hop : 0 ≤ c.old_building_percent) (hnp : 0 ≤ c.new_building_percent)
    (hE : 0 < c.total_site_energy) (hhv : 0 ≤ c.hvac_percent)
    (hlt : 0 ≤ c.lighting_percent) (hfan : 0 ≤ c.fan_percent_of_hvac)
    (hled : 0 ≤ c.current_led_percentage) (heff : 0 ≤ c.new_building_efficiency_factor)
    (hf1 : 0 ≤ ic.hvac_rightsizing_factor) (hf2 : 0 ≤ ic.humidity_control_factor)
    (hf3 : 0 ≤ ic.vfd_factor) (hf4 : 0 ≤ ic.led_conversion_factor)
    (hf5 : 0 ≤ ic.window_upgrade_factor)
    (a b : InterventionSelection) (hab : selLE a b) (ra rb : SavingsResult)
    (hra : calculate_savings t a = some ra) (hrb : calculate_savings t b = some rb) :
    ra.percent_savings ≤ rb.percent_savings := by
  obtain ⟨hne, rfl⟩ := mkTool_eq_some.mp ht
  obtain ⟨-, -, rfl⟩ := calculate_savings_eq_some.mp hra
  obtain ⟨-, -, rfl⟩ := calculate_savings_eq_some.mp hrb
  have hexa : 0 ≤ exhibition_area c := mul_nonneg harea hex
  have hoa : 0 ≤ old_building_area c := mul_nonneg hexa hop
  have hna : 0 ≤ new_building_area c := mul_nonneg hexa hnp
  have htea0 : 0 ≤ total_effective_area c := add_nonneg hoa (mul_nonneg hna heff)
  have hexe : 0 ≤ exhibition_energy c := mul_nonneg hE.le hex
  have hoe : (0:ℚ) ≤ exhibition_energy c * (old_building_area c / total_effective_area c) :=
    mul_nonneg hexe (div_nonneg hoa htea0)
  have hnen : (0:ℚ) ≤ exhibition_energy c *
      (new_building_area c * c.new_building_efficiency_factor / total_effective_area c) :=
    mul_nonneg hexe (div_nonneg (mul_nonneg hna heff) htea0)
  have hoh : 0 ≤ (mkToolCore c ic).old_building_hvac := mul_nonneg hoe hhv
  have hnh : 0 ≤ (mkToolCore c ic).new_building_hvac := mul_nonneg hnen hhv
  have hof : 0 ≤ (mkToolCore c ic).old_building_fan := mul_nonneg hoh hfan
  have hnf : 0 ≤ (mkToolCore c ic).new_building_fan := mul_nonneg hnh hfan
  have hol : 0 ≤ (mkToolCore c ic).old_building_lighting := mul_nonneg hoe hlt
  have hnl : 0 ≤ (mkToolCore c ic).new_building_lighting := mul_nonneg hnen hlt
  have htot := savingsCore_total_mono (mkToolCore c ic) hoh hnh hof hnf hol hnl
    hf1 hf2 hf3 hf4 hf5 hled a b hab
  have epct : ∀ iv : InterventionSelection, (savingsCore (mkToolCore c ic) iv).percent_savings =
      (savingsCore (mkToolCore c ic) iv).total_savings /
        (mkToolCore c ic).config.total_site_energy * 100 := fun _ => rfl
  rw [epct a, epct b]
  have hE2 : (0:ℚ) < (mkToolCore c ic).config.total_site_energy := hE
  exact mul_le_mul_of_nonneg_right ((div_le_div_iff_of_pos_right hE2).mpr htot) (by norm_num)

/-- C6 witness: with the default configuration, Percent Savings at the
empty selection is at most Percent Savings at full adoption. -/
theorem C6_percent_savings_mono_witness :
    (savingsCore defaultTool emptySelection).percent_savings ≤
      (savingsCore defaultTool fullSelection).percent_savings :=
  C6_percent_savings_mono defaultBuildingConfig defaultInterventionConfig defaultTool
    (by norm_num [mkTool, total_effective_area, old_building_area, new_building_area,
      exhibition_area, defaultBuildingConfig, defaultTool])
    (by norm_num [defaultBuildingConfig]) (by norm_num [defaultBuildingConfig])
    (by norm_num [defaultBuildingConfig]) (by norm_num [defaultBuildingConfig])
    (by norm_num [defaultBuildingConfig]) (by norm_num [defaultBuildingConfig])
    (by norm_num [defaultBuildingConfig]) (by norm_num [defaultBuildingConfig])
    (by norm_num [defaultBuildingConfig]) (by norm_num [defaultBuildingConfig])
    (by norm_num [defaultInterventionConfig]) (by norm_num [defaultInterventionConfig])
    (by norm_num [defaultInterventionConfig]) (by norm_num [defaultInterventionConfig])
    (by norm_num [defaultInterventionConfig])
    emptySelection fullSelection
    (by norm_num [selLE, adoptionOld, adoptionNew, emptySelection, fullSelection])
    (savingsCore defaultTool emptySelection) (savingsCore defaultTool fullSelection)
    (by norm_num [calculate_savings, defaultTool, mkToolCore, defaultBuildingConfig])
    (by norm_num [calculate_savings, defaultTool, mkToolCore, defaultBuildingConfig])
